import Mathlib

/-!
Verification development for the smart-inventory-ai AI service
(`ai-service/forecaster.py`, `ai-service/app.py`, `ai-service/db_connector.py`).

The embedding is shallow: the pandas/Prophet pipeline of
`ForecasterEngine._preprocess_data` and `ForecasterEngine.generate_forecast`
is translated into pure Lean functions over lists, with Python floats
modelled as `ℚ` and calendar dates as day indices (`Nat`).  The external
Prophet model and the MongoDB store are abstracted as function parameters,
exactly at the boundaries the source calls them.
-/

namespace SmartInventory

/-- Value found in the date column of one raw history row after
`pd.DataFrame(history)`: absent/null (becomes NaT under `pd.to_datetime`),
an unparseable string (makes `pd.to_datetime` raise), or a parsed date,
modelled as a day index. -/
inductive DateField where
  | missing
  | malformed
  | valid (d : Nat)
  deriving DecidableEq, Repr

/-- Value found in the quantity column of one raw history row: absent/null,
non-numeric (both coerced to NaN by `pd.to_numeric(errors='coerce')` and then
to 0 by `.fillna(0)`), or a number. -/
inductive QtyField where
  | missing
  | malformed
  | num (q : ℚ)
  deriving DecidableEq, Repr

/-- One raw history observation, after the column-name aliasing of
`_preprocess_data` (date/createdAt mapped to `ds`, sales/quantity_sold
mapped to `y`). -/
structure RawObs where
  ds : DateField
  y : QtyField
  deriving DecidableEq, Repr

/-- Embeds `pd.to_numeric(df['y'], errors='coerce').fillna(0)`: non-numeric or
missing quantities become 0; numbers pass through. -/
def coerceQty : QtyField → ℚ
  | QtyField.num q => q
  | QtyField.missing => 0
  | QtyField.malformed => 0

/-- The rows surviving `df.dropna(subset=['ds', 'y'])`: rows whose date is
NaT (missing) are dropped; every surviving row carries its parsed date and
coerced quantity.  (Rows with a malformed date never reach this point: they
make `pd.to_datetime` raise, see `preprocess_data`.) -/
def parsedRows (history : List RawObs) : List (Nat × ℚ) :=
  history.filterMap fun r =>
    match r.ds with
    | DateField.valid d => some (d, coerceQty r.y)
    | DateField.missing => none
    | DateField.malformed => none

/-- Total quantity observed on day `d`: the sum the `groupby('ds').sum()` /
`resample('D').sum()` steps assign to that calendar day (0 when no row has
that date). -/
def daySum (rows : List (Nat × ℚ)) (d : Nat) : ℚ :=
  ((rows.filter fun x => x.1 == d).map fun x => x.2).sum

/-- First date of the observed span (minimum date among the parsed rows,
written as the fold the resampling step effectively performs). -/
def spanLo (r : Nat × ℚ) (rs : List (Nat × ℚ)) : Nat :=
  rs.foldl (fun a x => min a x.1) r.1

/-- Last date of the observed span (maximum date among the parsed rows). -/
def spanHi (r : Nat × ℚ) (rs : List (Nat × ℚ)) : Nat :=
  rs.foldl (fun a x => max a x.1) r.1

/-- The `groupby('ds').sum()` + `resample('D').sum().fillna(0)` steps: one
entry per calendar day from the first to the last observed date, each
carrying the summed quantity of that day's rows (0 for absent days). -/
def resampled (r : Nat × ℚ) (rs : List (Nat × ℚ)) : List (Nat × ℚ) :=
  (List.range (spanHi r rs - spanLo r rs + 1)).map fun i =>
    (spanLo r rs + i, daySum (r :: rs) (spanLo r rs + i))

/-- Embeds `ForecasterEngine._preprocess_data`: alias columns, parse dates
(`pd.to_datetime` raises on any unparseable date string, so the whole
history is rejected through the `except` branch), coerce quantities with
missing/non-numeric treated as 0, drop rows with missing dates, aggregate
duplicate dates by sum, resample to one entry per calendar day over the
observed span filling absent days with 0, and reject (`None`) when fewer
than 10 daily entries result.  An empty history raises a `KeyError` on
`df['ds']` and is likewise rejected. -/
def preprocess_data (history : List RawObs) : Option (List (Nat × ℚ)) :=
  if history.any fun r => r.ds == DateField.malformed then
    none
  else
    match parsedRows history with
    | [] => none
    | r :: rs =>
      if (resampled r rs).length < 10 then none else some (resampled r rs)

/-- One row of the Prophet forecast frame, restricted to the columns the
source reads: `ds`, `yhat`, `yhat_lower`, `yhat_upper`. -/
structure ForecastPoint where
  ds : Nat
  yhat : ℚ
  yhat_lower : ℚ
  yhat_upper : ℚ
  deriving DecidableEq, Repr

/-- Trend label produced by the analyzer. -/
inductive Trend where
  | uptrend
  | downtrend
  | stable
  deriving DecidableEq, Repr

/-- Confidence label produced by the analyzer. -/
inductive Confidence where
  | high
  | low
  deriving DecidableEq, Repr

/-- The success payload `generate_forecast` returns (its `status` is carried
by `ForecastResult` instead). -/
structure Prediction where
  stock_out_date : Option Nat
  predicted_monthly_demand : Int
  trend : Trend
  confidence : Confidence
  forecast_data : List ForecastPoint
  deriving DecidableEq, Repr

/-- The three shapes of `generate_forecast`'s return dictionary:
`{"status": "insufficient_data"}`, `{"status": "error", ...}`, and the
success payload. -/
inductive ForecastResult where
  | insufficient_data
  | error (msg : String)
  | success (p : Prediction)
  deriving DecidableEq, Repr

/-- Embeds `DataFrame.tail(30)`: the last 30 rows, or all rows when fewer exist. -/
def tail30 (l : List ForecastPoint) : List ForecastPoint :=
  l.drop (l.length - 30)

/-- Python `int()` applied to a float: truncation toward zero. -/
def pyInt (q : ℚ) : Int :=
  if 0 ≤ q then Rat.floor q else -Rat.floor (-q)

/-- Embeds `future_data['yhat'].clip(lower=0).sum()`: total clamped demand over the
forecast window. -/
def clampedDemand (pts : List ForecastPoint) : ℚ :=
  (pts.map fun p => max 0 p.yhat).sum

/-- The depletion loop of `generate_forecast`: walk the rows in order,
subtract `max(0, yhat)` from the running stock, and return the date of the
first row at which the running stock is ≤ 0 (`None` when that never
happens). -/
def depletionDate : ℚ → List ForecastPoint → Option Nat
  | _, [] => none
  | stock, p :: rest =>
    let s := stock - max 0 p.yhat
    if s ≤ 0 then some p.ds else depletionDate s rest

/-- Embeds `Series.mean()` (only ever applied to nonempty series in the paths the
claims exercise). -/
def listMean (l : List ℚ) : ℚ :=
  l.sum / (l.length : ℚ)

/-- Embeds `future_data['yhat'].head(5).mean()`. -/
def startSales (pts : List ForecastPoint) : ℚ :=
  listMean ((pts.take 5).map fun p => p.yhat)

/-- Embeds `future_data['yhat'].tail(5).mean()`. -/
def endSales (pts : List ForecastPoint) : ℚ :=
  listMean ((pts.drop (pts.length - 5)).map fun p => p.yhat)

/-- The trend classification of `generate_forecast`: `if end > start * 1.1`
then uptrend, `elif end < start * 0.9` then downtrend, else stable. -/
def trendOf (pts : List ForecastPoint) : Trend :=
  if endSales pts > startSales pts * (11 / 10) then Trend.uptrend
  else if endSales pts < startSales pts * (9 / 10) then Trend.downtrend
  else Trend.stable

/-- Embeds `(future_data['yhat_upper'] - future_data['yhat_lower']).mean()`. -/
def avgSpread (pts : List ForecastPoint) : ℚ :=
  listMean (pts.map fun p => p.yhat_upper - p.yhat_lower)

/-- The confidence classification: high iff `avg_spread < current_qty * 0.2`. -/
def confidenceOf (current_qty : ℚ) (pts : List ForecastPoint) : Confidence :=
  if avgSpread pts < current_qty * (2 / 10) then Confidence.high else Confidence.low

/-- Steps 3–6 of `generate_forecast`, applied to the frame returned by
`m.predict`: take the last 30 rows as the future window, then compute
stock-out date, monthly demand (`int(...)` truncates), trend, confidence,
and the serialized forecast rows (`future_data[...].tail(30)`). -/
def analyzeForecast (current_qty : ℚ) (modelOutput : List ForecastPoint) : Prediction :=
  let future_data := tail30 modelOutput
  ⟨depletionDate current_qty future_data,
    pyInt (clampedDemand future_data),
    trendOf future_data,
    confidenceOf current_qty future_data,
    tail30 future_data⟩

/-- Outcome of the external Prophet fit/predict call: a forecast frame, or
an exception (caught by `generate_forecast` and turned into the `error`
status). -/
inductive ModelOutcome where
  | ok (rows : List ForecastPoint)
  | raises (msg : String)

/-- Embeds `ForecasterEngine.generate_forecast`, with the external Prophet model
abstracted as a function from the preprocessed daily series to a model
outcome. -/
def generate_forecast (model : List (Nat × ℚ) → ModelOutcome) (current_qty : ℚ)
    (history : List RawObs) : ForecastResult :=
  match preprocess_data history with
  | none => ForecastResult.insufficient_data
  | some df =>
    match model df with
    | ModelOutcome.raises msg => ForecastResult.error msg
    | ModelOutcome.ok forecast => ForecastResult.success (analyzeForecast current_qty forecast)

/-- One fetched product, projected to the fields `run_batch_prediction`
reads: `_id`, `quantity` (defaulting to 0 when absent, already applied),
and `history`. -/
structure Product where
  pid : Nat
  quantity : ℚ
  history : List RawObs
  deriving DecidableEq, Repr

/-- The realtime stats dictionary `{"uptrend": 0, "downtrend": 0,
"critical": 0}` accumulated by the batch loop. -/
structure BatchStats where
  uptrend : Nat
  downtrend : Nat
  critical : Nat
  deriving DecidableEq, Repr

/-- Embeds `DBConnector.fetch_training_batch`: the aggregation either yields a
product list or raises; any exception is caught and the empty list is
returned. -/
def fetch_training_batch (outcome : Except String (List Product)) : List Product :=
  match outcome with
  | Except.ok products => products
  | Except.error _ => []

/-- The per-product forecast the batch loop obtains:
`engine.generate_forecast(current_qty, history)`. -/
def predOf (model : List (Nat × ℚ) → ModelOutcome) (p : Product) : ForecastResult :=
  generate_forecast model p.quantity p.history

/-- One iteration of the batch loop in `run_batch_prediction`: on a success
status append the product to the bulk-update list and bump the matching
stats counters (`critical` whenever `stock_out_date` is truthy, i.e. a
non-null date string); otherwise leave the accumulator unchanged. -/
def stepProduct (model : List (Nat × ℚ) → ModelOutcome)
    (acc : List (Nat × Prediction) × BatchStats) (p : Product) :
    List (Nat × Prediction) × BatchStats :=
  match predOf model p with
  | ForecastResult.success pr =>
    (acc.1 ++ [(p.pid, pr)],
      ⟨acc.2.uptrend + (if pr.trend = Trend.uptrend then 1 else 0),
        acc.2.downtrend + (if pr.trend = Trend.downtrend then 1 else 0),
        acc.2.critical + (if pr.stock_out_date.isSome then 1 else 0)⟩)
  | ForecastResult.insufficient_data => acc
  | ForecastResult.error _ => acc

/-- The `for p in products` loop of `run_batch_prediction`, folding
`stepProduct` from the empty update list and zero stats. -/
def runLoop (model : List (Nat × ℚ) → ModelOutcome) (products : List Product) :
    List (Nat × Prediction) × BatchStats :=
  products.foldl (stepProduct model) ([], ⟨0, 0, 0⟩)

/-- The three response shapes of the `/predict/batch` endpoint: the
"No products with sufficient history found." 200 response, the success
report `{processed, updated, insights}` (200), and the batch-level error
response (500). -/
inductive BatchResponse where
  | noData
  | report (processed updated : Nat) (stats : BatchStats)
  | failure (msg : String)
  deriving DecidableEq, Repr

/-- Embeds `run_batch_prediction` of `app.py`: fetch the batch (a store error
having already collapsed to the empty list inside
`fetch_training_batch`), short-circuit to the no-data response when
empty, otherwise fold the product loop and report
`processed = len(products)`, `updated = len(updates)` and the stats.
The bulk persistence call does not alter the response. -/
def run_batch_prediction (model : List (Nat × ℚ) → ModelOutcome)
    (fetched : Except String (List Product)) : BatchResponse :=
  let products := fetch_training_batch fetched
  if products.isEmpty then BatchResponse.noData
  else
    let r := runLoop model products
    BatchResponse.report products.length r.1.length r.2

/-- Whether a per-product result carries the success status. -/
def isSuccessB (r : ForecastResult) : Bool :=
  match r with
  | ForecastResult.success _ => true
  | ForecastResult.insufficient_data => false
  | ForecastResult.error _ => false

/-- The bulk-update entry a product contributes, when its analysis
succeeded. -/
def toUpdate (model : List (Nat × ℚ) → ModelOutcome) (p : Product) :
    Option (Nat × Prediction) :=
  match predOf model p with
  | ForecastResult.success pr => some (p.pid, pr)
  | ForecastResult.insufficient_data => none
  | ForecastResult.error _ => none

/-- Whether a product contributes to the uptrend counter. -/
def upB (model : List (Nat × ℚ) → ModelOutcome) (p : Product) : Bool :=
  match predOf model p with
  | ForecastResult.success pr => decide (pr.trend = Trend.uptrend)
  | ForecastResult.insufficient_data => false
  | ForecastResult.error _ => false

/-- Whether a product contributes to the downtrend counter. -/
def downB (model : List (Nat × ℚ) → ModelOutcome) (p : Product) : Bool :=
  match predOf model p with
  | ForecastResult.success pr => decide (pr.trend = Trend.downtrend)
  | ForecastResult.insufficient_data => false
  | ForecastResult.error _ => false

/-- Whether a product contributes to the critical counter (successful
analysis with a non-null stock-out date). -/
def critB (model : List (Nat × ℚ) → ModelOutcome) (p : Product) : Bool :=
  match predOf model p with
  | ForecastResult.success pr => pr.stock_out_date.isSome
  | ForecastResult.insufficient_data => false
  | ForecastResult.error _ => false

/-- Running consumption of the depletion simulation: the stock removed by
the first `k` forecast days, each clamped at zero from below.  This is the
specification-side quantity the depletion loop is compared against. -/
def consumedBy (pts : List ForecastPoint) (k : Nat) : ℚ :=
  ((pts.take k).map fun p => max 0 p.yhat).sum

/-! Concrete inputs used by witnesses and counterexamples. -/

/-- 30 forecast days, one unit of demand per day, dated 0..29. -/
def onePts : List ForecastPoint :=
  [⟨0, 1, 0, 2⟩, ⟨1, 1, 0, 2⟩, ⟨2, 1, 0, 2⟩, ⟨3, 1, 0, 2⟩, ⟨4, 1, 0, 2⟩, ⟨5, 1, 0, 2⟩,
    ⟨6, 1, 0, 2⟩, ⟨7, 1, 0, 2⟩, ⟨8, 1, 0, 2⟩, ⟨9, 1, 0, 2⟩, ⟨10, 1, 0, 2⟩, ⟨11, 1, 0, 2⟩,
    ⟨12, 1, 0, 2⟩, ⟨13, 1, 0, 2⟩, ⟨14, 1, 0, 2⟩, ⟨15, 1, 0, 2⟩, ⟨16, 1, 0, 2⟩, ⟨17, 1, 0, 2⟩,
    ⟨18, 1, 0, 2⟩, ⟨19, 1, 0, 2⟩, ⟨20, 1, 0, 2⟩, ⟨21, 1, 0, 2⟩, ⟨22, 1, 0, 2⟩, ⟨23, 1, 0, 2⟩,
    ⟨24, 1, 0, 2⟩, ⟨25, 1, 0, 2⟩, ⟨26, 1, 0, 2⟩, ⟨27, 1, 0, 2⟩, ⟨28, 1, 0, 2⟩, ⟨29, 1, 0, 2⟩]

/-- 30 forecast days with every point estimate 0, dated 0..29. -/
def zPts : List ForecastPoint :=
  [⟨0, 0, 0, 0⟩, ⟨1, 0, 0, 0⟩, ⟨2, 0, 0, 0⟩, ⟨3, 0, 0, 0⟩, ⟨4, 0, 0, 0⟩, ⟨5, 0, 0, 0⟩,
    ⟨6, 0, 0, 0⟩, ⟨7, 0, 0, 0⟩, ⟨8, 0, 0, 0⟩, ⟨9, 0, 0, 0⟩, ⟨10, 0, 0, 0⟩, ⟨11, 0, 0, 0⟩,
    ⟨12, 0, 0, 0⟩, ⟨13, 0, 0, 0⟩, ⟨14, 0, 0, 0⟩, ⟨15, 0, 0, 0⟩, ⟨16, 0, 0, 0⟩, ⟨17, 0, 0, 0⟩,
    ⟨18, 0, 0, 0⟩, ⟨19, 0, 0, 0⟩, ⟨20, 0, 0, 0⟩, ⟨21, 0, 0, 0⟩, ⟨22, 0, 0, 0⟩, ⟨23, 0, 0, 0⟩,
    ⟨24, 0, 0, 0⟩, ⟨25, 0, 0, 0⟩, ⟨26, 0, 0, 0⟩, ⟨27, 0, 0, 0⟩, ⟨28, 0, 0, 0⟩, ⟨29, 0, 0, 0⟩]

/-- 30 forecast days whose clamped demand sums to the non-integer 109/10. -/
def fracPts : List ForecastPoint :=
  [⟨0, 109 / 10, 0, 1⟩, ⟨1, 0, 0, 0⟩, ⟨2, 0, 0, 0⟩, ⟨3, 0, 0, 0⟩, ⟨4, 0, 0, 0⟩, ⟨5, 0, 0, 0⟩,
    ⟨6, 0, 0, 0⟩, ⟨7, 0, 0, 0⟩, ⟨8, 0, 0, 0⟩, ⟨9, 0, 0, 0⟩, ⟨10, 0, 0, 0⟩, ⟨11, 0, 0, 0⟩,
    ⟨12, 0, 0, 0⟩, ⟨13, 0, 0, 0⟩, ⟨14, 0, 0, 0⟩, ⟨15, 0, 0, 0⟩, ⟨16, 0, 0, 0⟩, ⟨17, 0, 0, 0⟩,
    ⟨18, 0, 0, 0⟩, ⟨19, 0, 0, 0⟩, ⟨20, 0, 0, 0⟩, ⟨21, 0, 0, 0⟩, ⟨22, 0, 0, 0⟩, ⟨23, 0, 0, 0⟩,
    ⟨24, 0, 0, 0⟩, ⟨25, 0, 0, 0⟩, ⟨26, 0, 0, 0⟩, ⟨27, 0, 0, 0⟩, ⟨28, 0, 0, 0⟩, ⟨29, 0, 0, 0⟩]

/-- 30 forecast days with every point estimate −10: first-window and
last-window means tie at a negative value. -/
def negPts : List ForecastPoint :=
  [⟨0, -10, -12, -8⟩, ⟨1, -10, -12, -8⟩, ⟨2, -10, -12, -8⟩, ⟨3, -10, -12, -8⟩,
    ⟨4, -10, -12, -8⟩, ⟨5, -10, -12, -8⟩, ⟨6, -10, -12, -8⟩, ⟨7, -10, -12, -8⟩,
    ⟨8, -10, -12, -8⟩, ⟨9, -10, -12, -8⟩, ⟨10, -10, -12, -8⟩, ⟨11, -10, -12, -8⟩,
    ⟨12, -10, -12, -8⟩, ⟨13, -10, -12, -8⟩, ⟨14, -10, -12, -8⟩, ⟨15, -10, -12, -8⟩,
    ⟨16, -10, -12, -8⟩, ⟨17, -10, -12, -8⟩, ⟨18, -10, -12, -8⟩, ⟨19, -10, -12, -8⟩,
    ⟨20, -10, -12, -8⟩, ⟨21, -10, -12, -8⟩, ⟨22, -10, -12, -8⟩, ⟨23, -10, -12, -8⟩,
    ⟨24, -10, -12, -8⟩, ⟨25, -10, -12, -8⟩, ⟨26, -10, -12, -8⟩, ⟨27, -10, -12, -8⟩,
    ⟨28, -10, -12, -8⟩, ⟨29, -10, -12, -8⟩]

/-- A model output of only 5 rows. -/
def shortPts : List ForecastPoint :=
  [⟨100, 3, 1, 5⟩, ⟨101, 3, 1, 5⟩, ⟨102, 3, 1, 5⟩, ⟨103, 3, 1, 5⟩, ⟨104, 3, 1, 5⟩]

/-- A model that always returns the 5-row output. -/
def shortModel : List (Nat × ℚ) → ModelOutcome :=
  fun _ => ModelOutcome.ok shortPts

/-- A clean history: 10 consecutive days, quantity 2 each. -/
def goodHist : List RawObs :=
  [⟨DateField.valid 0, QtyField.num 2⟩, ⟨DateField.valid 1, QtyField.num 2⟩,
    ⟨DateField.valid 2, QtyField.num 2⟩, ⟨DateField.valid 3, QtyField.num 2⟩,
    ⟨DateField.valid 4, QtyField.num 2⟩, ⟨DateField.valid 5, QtyField.num 2⟩,
    ⟨DateField.valid 6, QtyField.num 2⟩, ⟨DateField.valid 7, QtyField.num 2⟩,
    ⟨DateField.valid 8, QtyField.num 2⟩, ⟨DateField.valid 9, QtyField.num 2⟩]

/-- The daily series `goodHist` normalizes to. -/
def goodSeries : List (Nat × ℚ) :=
  [(0, 2), (1, 2), (2, 2), (3, 2), (4, 2), (5, 2), (6, 2), (7, 2), (8, 2), (9, 2)]

/-- The clean history plus one row whose date string cannot be parsed. -/
def malHist : List RawObs :=
  goodHist ++ [⟨DateField.malformed, QtyField.num 1⟩]

/-- The clean history plus one row whose date is absent/null. -/
def missHist : List RawObs :=
  ⟨DateField.missing, QtyField.num 7⟩ :: goodHist

/-- A model that raises exactly on 12-day series and otherwise forecasts
zero demand every day. -/
def witModel : List (Nat × ℚ) → ModelOutcome :=
  fun df => if df.length == 12 then ModelOutcome.raises "model blew up" else ModelOutcome.ok zPts

/-- A 12-day history: `witModel` raises on its series. -/
def histB : List RawObs :=
  [⟨DateField.valid 0, QtyField.num 1⟩, ⟨DateField.valid 1, QtyField.num 1⟩,
    ⟨DateField.valid 2, QtyField.num 1⟩, ⟨DateField.valid 3, QtyField.num 1⟩,
    ⟨DateField.valid 4, QtyField.num 1⟩, ⟨DateField.valid 5, QtyField.num 1⟩,
    ⟨DateField.valid 6, QtyField.num 1⟩, ⟨DateField.valid 7, QtyField.num 1⟩,
    ⟨DateField.valid 8, QtyField.num 1⟩, ⟨DateField.valid 9, QtyField.num 1⟩,
    ⟨DateField.valid 10, QtyField.num 1⟩, ⟨DateField.valid 11, QtyField.num 1⟩]

/-- Product with a 1-day history: rejected as insufficient data. -/
def prodA : Product :=
  ⟨1, 50, [⟨DateField.valid 0, QtyField.num 1⟩]⟩

/-- Product with the 12-day history: `witModel` raises on it. -/
def prodB : Product :=
  ⟨2, 50, histB⟩

/-- Product with the clean 10-day history: analyzed successfully. -/
def prodC : Product :=
  ⟨3, 100, goodHist⟩

/-- The three-product batch of the spec's worked example. -/
def witProducts : List Product :=
  [prodA, prodB, prodC]

/-! Lemmas about the depletion loop. -/

/-- Unfolding equation for `depletionDate` on a nonempty forecast. -/
theorem depletionDate_cons (qty : ℚ) (p : ForecastPoint) (rest : List ForecastPoint) :
    depletionDate qty (p :: rest) =
      if qty - max 0 p.yhat ≤ 0 then some p.ds
      else depletionDate (qty - max 0 p.yhat) rest := rfl

/-- No forecast day consumes anything before the window starts. -/
theorem consumedBy_zero (pts : List ForecastPoint) : consumedBy pts 0 = 0 := rfl

/-- Peeling the first forecast day off the running consumption. -/
theorem consumedBy_cons (p : ForecastPoint) (rest : List ForecastPoint) (k : Nat) :
    consumedBy (p :: rest) (k + 1) = max 0 p.yhat + consumedBy rest k := by
  simp [consumedBy]

/-- The loop returns `none` exactly when the running stock stays positive
after every day of the forecast. -/
theorem depletionDate_none_iff (pts : List ForecastPoint) (qty : ℚ) :
    depletionDate qty pts = none ↔
      ∀ k, k < pts.length → 0 < qty - consumedBy pts (k + 1) := by
  induction pts generalizing qty with
  | nil => simp [depletionDate]
  | cons p rest ih =>
    rw [depletionDate_cons]
    by_cases hs : qty - max 0 p.yhat ≤ 0
    · rw [if_pos hs]
      have h0 : ¬ (0 < qty - consumedBy (p :: rest) (0 + 1)) := by
        rw [consumedBy_cons, consumedBy_zero]
        linarith
      constructor
      · intro h
        exact absurd h (by simp)
      · intro h
        exact absurd (h 0 (by simp)) h0
    · rw [if_neg hs, ih]
      push_neg at hs
      constructor
      · intro h k hk
        cases k with
        | zero =>
          rw [consumedBy_cons, consumedBy_zero]
          linarith
        | succ j =>
          have hj := h j (Nat.lt_of_succ_lt_succ hk)
          rw [consumedBy_cons]
          linarith
      · intro h k hk
        have hk1 := h (k + 1) (Nat.succ_lt_succ hk)
        rw [consumedBy_cons] at hk1
        linarith

/-- The loop returns the date of the first day whose cumulative clamped
consumption exhausts the stock. -/
theorem depletionDate_first_hit (pts : List ForecastPoint) (qty : ℚ) (i : Nat)
    (hi : i < pts.length) (hdep : qty - consumedBy pts (i + 1) ≤ 0)
    (hbefore : ∀ k, k < i → 0 < qty - consumedBy pts (k + 1)) :
    depletionDate qty pts = some ((pts.get ⟨i, hi⟩).ds) := by
  induction pts generalizing qty i with
  | nil => exact absurd hi (Nat.not_lt_zero i)
  | cons p rest ih =>
    rw [depletionDate_cons]
    cases i with
    | zero =>
      rw [consumedBy_cons, consumedBy_zero] at hdep
      rw [if_pos (by linarith)]
      rfl
    | succ j =>
      have h0 := hbefore 0 (Nat.succ_pos j)
      rw [consumedBy_cons, consumedBy_zero] at h0
      rw [if_neg (by linarith)]
      have hj : j < rest.length := Nat.lt_of_succ_lt_succ hi
      have hrec : depletionDate (qty - max 0 p.yhat) rest = some ((rest.get ⟨j, hj⟩).ds) := by
        apply ih
        · rw [consumedBy_cons] at hdep
          linarith
        · intro k hk
          have hks := hbefore (k + 1) (Nat.succ_lt_succ hk)
          rw [consumedBy_cons] at hks
          linarith
      rw [hrec]
      rfl

/-- The depletion simulation runs over the full forecast window when the
model output has exactly 30 rows. -/
theorem tail30_of_len30 (pts : List ForecastPoint) (hlen : pts.length = 30) :
    tail30 pts = pts := by
  simp [tail30, hlen]

/-- C1: over a 30-point forecast, the analyzer's depletion simulation starts
the running stock at `current_qty`, subtracts `max(0, point_estimate)` per
day, records as `stock_out_date` the date of the first day on which the
running stock is ≤ 0, yields `none` exactly when the running stock stays
positive across the whole horizon, and in particular with `current_qty = 0`
and a positive day-1 estimate the stock-out date is the first forecast day. -/
theorem c1_depletion_simulation (qty : ℚ) (pts : List ForecastPoint)
    (hlen : pts.length = 30) :
    ((analyzeForecast qty pts).stock_out_date = none ↔
      ∀ k, k < 30 → 0 < qty - consumedBy pts (k + 1)) ∧
    (∀ i (hi : i < pts.length), qty - consumedBy pts (i + 1) ≤ 0 →
      (∀ k, k < i → 0 < qty - consumedBy pts (k + 1)) →
      (analyzeForecast qty pts).stock_out_date = some ((pts.get ⟨i, hi⟩).ds)) ∧
    (qty = 0 → ∀ p, pts.head? = some p → 0 < p.yhat →
      (analyzeForecast qty pts).stock_out_date = some p.ds) := by
  have hsod : (analyzeForecast qty pts).stock_out_date = depletionDate qty pts := by
    simp [analyzeForecast, tail30_of_len30 pts hlen]
  refine ⟨?_, ?_, ?_⟩
  · rw [hsod, depletionDate_none_iff, hlen]
  · intro i hi hdep hbefore
    rw [hsod]
    exact depletionDate_first_hit pts qty i hi hdep hbefore
  · intro hq p hp hpos
    cases pts with
    | nil => cases hp
    | cons q rest =>
      have hpq : p = q := by
        simpa using hp.symm
      subst hpq hq
      rw [hsod, depletionDate_cons, if_pos]
      have hmax : (0 : ℚ) ≤ max 0 p.yhat := le_max_left 0 p.yhat
      linarith

/-- Witness for C1 at a concrete input: zero stock against a forecast of one
unit per day stocks out on the first forecast day (day 0). -/
theorem c1_depletion_simulation_witness :
    (analyzeForecast 0 onePts).stock_out_date = some 0 :=
  (c1_depletion_simulation 0 onePts (by decide)).2.2 rfl ⟨0, 1, 0, 2⟩ (by decide) (by norm_num)

/-- Clamped consumption of the first `k` days vanishes when every point
estimate is 0. -/
theorem consumedBy_of_all_zero (pts : List ForecastPoint) (k : Nat)
    (hz : ∀ p ∈ pts, p.yhat = 0) : consumedBy pts k = 0 := by
  apply List.sum_eq_zero
  intro x hx
  obtain ⟨p, hp, rfl⟩ := List.mem_map.1 hx
  rw [hz p (List.take_subset k pts hp)]
  exact max_self 0

/-- Total clamped demand vanishes when every point estimate is 0. -/
theorem clampedDemand_of_all_zero (pts : List ForecastPoint)
    (hz : ∀ p ∈ pts, p.yhat = 0) : clampedDemand pts = 0 := by
  apply List.sum_eq_zero
  intro x hx
  obtain ⟨p, hp, rfl⟩ := List.mem_map.1 hx
  rw [hz p hp]
  exact max_self 0

/-- C5 counterexample: with `current_qty = 0` and all 30 point estimates 0,
the code records a stock-out on the first forecast day, so the claim's
universal quantification over every current stock quantity fails. -/
theorem c5_counterexample :
    zPts.length = 30 ∧ (∀ p ∈ zPts, p.yhat = 0) ∧
    (analyzeForecast 0 zPts).stock_out_date ≠ none := by
  refine ⟨by decide, by decide, ?_⟩
  have h : (analyzeForecast 0 zPts).stock_out_date = depletionDate 0 zPts := by
    show depletionDate 0 (tail30 zPts) = _
    rw [tail30_of_len30 zPts (by decide)]
  have h2 : depletionDate 0 zPts = some 0 := by
    show depletionDate 0 (⟨0, 0, 0, 0⟩ :: _) = some 0
    rw [depletionDate_cons, if_pos (by simp)]
  rw [h, h2]
  simp

/-- C5 (amended): for every positive current stock quantity, an all-zero
30-point forecast yields no stock-out date and zero predicted monthly
demand. -/
theorem c5_all_zero_forecast (qty : ℚ) (pts : List ForecastPoint)
    (hq : 0 < qty) (hlen : pts.length = 30) (hz : ∀ p ∈ pts, p.yhat = 0) :
    (analyzeForecast qty pts).stock_out_date = none ∧
    (analyzeForecast qty pts).predicted_monthly_demand = 0 := by
  have h30 := tail30_of_len30 pts hlen
  constructor
  · show depletionDate qty (tail30 pts) = none
    rw [h30, depletionDate_none_iff]
    intro k _
    rw [consumedBy_of_all_zero pts (k + 1) hz]
    linarith
  · show pyInt (clampedDemand (tail30 pts)) = 0
    rw [h30, clampedDemand_of_all_zero pts hz]
    decide

/-- Witness for the amended C5 at stock 5 against the all-zero forecast. -/
theorem c5_all_zero_forecast_witness :
    (analyzeForecast 5 zPts).stock_out_date = none ∧
    (analyzeForecast 5 zPts).predicted_monthly_demand = 0 :=
  c5_all_zero_forecast 5 zPts (by norm_num) (by decide) (by decide)

/-- The primitive `Rat.floor` agrees with the floor of the floor ring ℚ. -/
theorem ratFloor_eq_floor (q : ℚ) : Rat.floor q = ⌊q⌋ := by
  rw [Rat.floor_def' q, Rat.floor_def]

/-- C6 counterexample: a 30-day forecast whose clamped demand sums to 10.9
is reported as monthly demand 10 by the code (`int()` truncates), while
rounding to the nearest integer would give 11. -/
theorem c6_counterexample :
    fracPts.length = 30 ∧
    (analyzeForecast 100 fracPts).predicted_monthly_demand ≠
      round ((fracPts.map fun p => max 0 p.yhat).sum) := by
  have hM : max (0 : ℚ) (109 / 10) = 109 / 10 := max_eq_right (by norm_num)
  have hsum : (fracPts.map fun p => max 0 p.yhat).sum = 109 / 10 := by
    simp [fracPts, hM]
  refine ⟨by decide, ?_⟩
  have hdem : (analyzeForecast 100 fracPts).predicted_monthly_demand = 10 := by
    show pyInt (clampedDemand (tail30 fracPts)) = 10
    rw [tail30_of_len30 fracPts (by decide)]
    show pyInt ((fracPts.map fun p => max 0 p.yhat).sum) = 10
    rw [hsum]
    unfold pyInt
    rw [if_pos (by norm_num), ratFloor_eq_floor]
    norm_num
  rw [hdem, hsum, round_eq]
  norm_num

/-- C6 (amended): over any 30-point forecast, the predicted monthly demand
is the sum of `max(0, point_estimate)` over the 30 days truncated to an
integer (a floor, since the clamped sum is nonnegative), not rounded. -/
theorem c6_monthly_demand (qty : ℚ) (pts : List ForecastPoint)
    (hlen : pts.length = 30) :
    (analyzeForecast qty pts).predicted_monthly_demand =
      Int.floor ((pts.map fun p => max 0 p.yhat).sum) := by
  have h30 := tail30_of_len30 pts hlen
  have hnn : 0 ≤ (pts.map fun p => max 0 p.yhat).sum := by
    apply List.sum_nonneg
    intro x hx
    obtain ⟨p, _, rfl⟩ := List.mem_map.1 hx
    exact le_max_left 0 p.yhat
  show pyInt (clampedDemand (tail30 pts)) = _
  rw [h30]
  unfold pyInt clampedDemand
  rw [if_pos hnn, ratFloor_eq_floor]

/-- Witness for the amended C6: the one-unit-per-day forecast gives demand
⌊30⌋. -/
theorem c6_monthly_demand_witness :
    (analyzeForecast 100 onePts).predicted_monthly_demand =
      Int.floor ((onePts.map fun p => max 0 p.yhat).sum) :=
  c6_monthly_demand 100 onePts (by decide)

/-- C7 counterexample: when the first-window and last-window means tie at a
negative value (−10), the code classifies an uptrend, although the claim
demands `stable` for every tie and `downtrend` whenever `end < start*0.9`
(here −10 < −9). -/
theorem c7_counterexample :
    negPts.length = 30 ∧
    endSales negPts = startSales negPts ∧
    endSales negPts < startSales negPts * (9 / 10) ∧
    (analyzeForecast 100 negPts).trend = Trend.uptrend := by
  have hst : startSales negPts = -10 := by
    norm_num [startSales, listMean, negPts]
  have hend : endSales negPts = -10 := by
    norm_num [endSales, listMean, negPts]
  refine ⟨by decide, by rw [hst, hend], by rw [hst, hend]; norm_num, ?_⟩
  show trendOf (tail30 negPts) = Trend.uptrend
  rw [tail30_of_len30 negPts (by decide)]
  unfold trendOf
  rw [hst, hend, if_pos (by norm_num)]

/-- C7 (amended): over any 30-point forecast, with `start` the mean point
estimate of the first 5 days and `end` the mean of the last 5 days, the
trend is uptrend exactly when `end > start*1.1`; downtrend exactly when the
uptrend test fails and `end < start*0.9`; stable otherwise; and every tie
with nonnegative mean resolves to stable (a negative tie is classified
uptrend by the `if/elif` order). -/
theorem c7_trend_classification (qty st e : ℚ) (pts : List ForecastPoint)
    (hlen : pts.length = 30)
    (hst : st = ((pts.take 5).map fun p => p.yhat).sum / 5)
    (he : e = ((pts.drop 25).map fun p => p.yhat).sum / 5) :
    ((analyzeForecast qty pts).trend = Trend.uptrend ↔ st * (11 / 10) < e) ∧
    ((analyzeForecast qty pts).trend = Trend.downtrend ↔
      ¬ st * (11 / 10) < e ∧ e < st * (9 / 10)) ∧
    ((analyzeForecast qty pts).trend = Trend.stable ↔
      ¬ st * (11 / 10) < e ∧ ¬ e < st * (9 / 10)) ∧
    (e = st → 0 ≤ st → (analyzeForecast qty pts).trend = Trend.stable) := by
  have h30 := tail30_of_len30 pts hlen
  have htr : (analyzeForecast qty pts).trend = trendOf pts := by
    show trendOf (tail30 pts) = trendOf pts
    rw [h30]
  have hlt : ((pts.take 5).map fun p => p.yhat).length = 5 := by
    simp [hlen]
  have hld : ((pts.drop (pts.length - 5)).map fun p => p.yhat).length = 5 := by
    simp [hlen]
  have hstart : startSales pts = st := by
    rw [hst, startSales, listMean, hlt]
    norm_num
  have hend : endSales pts = e := by
    rw [he, endSales, listMean, hld, hlen]
    norm_num
  rw [htr]
  unfold trendOf
  rw [hstart, hend]
  split_ifs with h1 h2
  · refine ⟨by simp [h1], by simp [h1], by simp [h1], ?_⟩
    intro hte hst0
    exfalso
    rw [hte] at h1
    linarith
  · refine ⟨by simp [h1, h2], by simp [h1, h2], by simp [h2], ?_⟩
    intro hte hst0
    exfalso
    rw [hte] at h2
    linarith
  · refine ⟨by simp [h1], by simp [h1, h2], by simp [h1, h2], ?_⟩
    intro _ _
    rfl

/-- Witness for the amended C7: the all-zero forecast ties at mean 0 and is
classified stable. -/
theorem c7_trend_classification_witness :
    (analyzeForecast 100 zPts).trend = Trend.stable :=
  (c7_trend_classification 100 0 0 zPts (by decide) (by simp [zPts]) (by simp [zPts])).2.2.2
    rfl (by norm_num)

/-- The clean 10-day history normalizes to the expected daily series. -/
theorem preprocess_goodHist : preprocess_data goodHist = some goodSeries := by
  simp [preprocess_data, parsedRows, goodHist, coerceQty, resampled, spanLo, spanHi, daySum,
    List.range_succ, goodSeries]

/-- C4 counterexample: the code performs no length validation on the model
output.  A 5-row model output flows through `tail(30)` unchanged and yields
a success result carrying only 5 forecast points, not a ModelFailure. -/
theorem c4_counterexample :
    shortPts.length = 5 ∧
    generate_forecast shortModel 100 goodHist =
      ForecastResult.success (analyzeForecast 100 shortPts) ∧
    (analyzeForecast 100 shortPts).forecast_data.length = 5 ∧
    isSuccessB (generate_forecast shortModel 100 goodHist) = true := by
  refine ⟨by decide, ?_, by decide, rfl⟩
  show (match preprocess_data goodHist with
    | none => ForecastResult.insufficient_data
    | some df =>
      match shortModel df with
      | ModelOutcome.raises msg => ForecastResult.error msg
      | ModelOutcome.ok forecast => ForecastResult.success (analyzeForecast 100 forecast)) = _
  rw [preprocess_goodHist]
  rfl

/-- C4 (amended): the adapter extracts the last `min(30, n)` rows of the
model output as the future window; a well-formed model call never yields a
ModelFailure on a short output — with 30 or more rows the window is exactly
the last 30 rows, with fewer the success result simply carries fewer
points. -/
theorem c4_tail_extraction (qty : ℚ) (out : List ForecastPoint) (hist : List RawObs)
    (df : List (Nat × ℚ)) (hpre : preprocess_data hist = some df) :
    generate_forecast (fun _ => ModelOutcome.ok out) qty hist =
      ForecastResult.success (analyzeForecast qty out) ∧
    (analyzeForecast qty out).forecast_data.length = min 30 out.length ∧
    (30 ≤ out.length →
      (analyzeForecast qty out).forecast_data = out.drop (out.length - 30)) := by
  refine ⟨?_, ?_, ?_⟩
  · show (match preprocess_data hist with
      | none => ForecastResult.insufficient_data
      | some df =>
        match (fun _ => ModelOutcome.ok out) df with
        | ModelOutcome.raises msg => ForecastResult.error msg
        | ModelOutcome.ok forecast => ForecastResult.success (analyzeForecast qty forecast)) = _
    rw [hpre]
  · show (tail30 (tail30 out)).length = min 30 out.length
    simp only [tail30, List.length_drop]
    omega
  · intro h30
    show tail30 (tail30 out) = out.drop (out.length - 30)
    have h1 : (tail30 out).length = 30 := by
      simp only [tail30, List.length_drop]
      omega
    rw [tail30_of_len30 _ h1]
    rfl

/-- Witness for the amended C4: a 30-row output is passed through whole. -/
theorem c4_tail_extraction_witness :
    generate_forecast (fun _ => ModelOutcome.ok onePts) 100 goodHist =
      ForecastResult.success (analyzeForecast 100 onePts) ∧
    (analyzeForecast 100 onePts).forecast_data.length = min 30 onePts.length ∧
    (30 ≤ onePts.length →
      (analyzeForecast 100 onePts).forecast_data = onePts.drop (onePts.length - 30)) :=
  c4_tail_extraction 100 onePts goodHist goodSeries preprocess_goodHist

/-- Unfolding equation for `parsedRows` on a nonempty history. -/
theorem parsedRows_cons (r : RawObs) (t : List RawObs) :
    parsedRows (r :: t) = (match r.ds with
      | DateField.valid d => (d, coerceQty r.y) :: parsedRows t
      | DateField.missing => parsedRows t
      | DateField.malformed => parsedRows t) := by
  cases hds : r.ds <;> simp [parsedRows, List.filterMap_cons, hds]

/-- Rows whose date is missing are invisible to the parsing stage: filtering
them away leaves the parsed rows unchanged. -/
theorem parsedRows_filter_missing (h : List RawObs) :
    parsedRows (h.filter fun r => !(r.ds == DateField.missing)) = parsedRows h := by
  induction h with
  | nil => rfl
  | cons r t ih =>
    cases hds : r.ds <;>
      simp [List.filter_cons, parsedRows_cons, hds, ih]

/-- C8 counterexample: a history holding the clean 10-day series plus one
row with an unparseable date string is rejected outright by the code, even
though dropping just that row would normalize fine — the claim's
"drops exactly those rows / remaining rows still normalized" fails. -/
theorem c8_counterexample :
    preprocess_data malHist = none ∧
    (preprocess_data (malHist.filter fun r => !(r.ds == DateField.malformed))).isSome = true :=
  ⟨rfl, rfl⟩

/-- C8 (amended): a row with a missing (null) date is dropped and the
remaining rows are still normalized, but any row whose date string cannot
be parsed makes `pd.to_datetime` raise and the whole history is rejected;
rows with a non-numeric or missing quantity are kept with quantity 0, so a
malformed quantity never removes a date's presence. -/
theorem c8_row_handling :
    (∀ h : List RawObs, (∃ r ∈ h, r.ds = DateField.malformed) → preprocess_data h = none) ∧
    (∀ h : List RawObs, (∀ r ∈ h, r.ds ≠ DateField.malformed) →
      preprocess_data h =
        preprocess_data (h.filter fun r => !(r.ds == DateField.missing))) ∧
    (∀ (h : List RawObs) (r : RawObs) (d : Nat), r ∈ h → r.ds = DateField.valid d →
      (d, coerceQty r.y) ∈ parsedRows h) ∧
    coerceQty QtyField.missing = 0 ∧ coerceQty QtyField.malformed = 0 := by
  refine ⟨?_, ?_, ?_, rfl, rfl⟩
  · rintro h ⟨r, hr, hds⟩
    unfold preprocess_data
    rw [if_pos (List.any_eq_true.2 ⟨r, hr, by rw [hds]; rfl⟩)]
  · intro h hmal
    have hpar := parsedRows_filter_missing h
    have h1 : (h.any fun r => r.ds == DateField.malformed) = false := by
      rw [List.any_eq_false]
      intro r hr
      simpa using hmal r hr
    have h2 : ((h.filter fun r => !(r.ds == DateField.missing)).any
        fun r => r.ds == DateField.malformed) = false := by
      rw [List.any_eq_false]
      intro r hr
      simpa using hmal r (List.mem_of_mem_filter hr)
    unfold preprocess_data
    rw [h1, h2, hpar]
  · intro h r d hr hds
    unfold parsedRows
    refine List.mem_filterMap.2 ⟨r, hr, ?_⟩
    rw [hds]

/-- Witness for the amended C8 at the three concrete histories. -/
theorem c8_row_handling_witness :
    preprocess_data malHist = none ∧
    preprocess_data missHist =
      preprocess_data (missHist.filter fun r => !(r.ds == DateField.missing)) ∧
    ((0 : Nat), (2 : ℚ)) ∈ parsedRows goodHist :=
  ⟨c8_row_handling.1 malHist ⟨⟨DateField.malformed, QtyField.num 1⟩, by decide, rfl⟩,
    c8_row_handling.2.1 missHist (by decide),
    c8_row_handling.2.2.1 goodHist ⟨DateField.valid 0, QtyField.num 2⟩ 0 (by decide) rfl⟩

/-! Lemmas about the batch loop. -/

/-- Characterization of the batch fold: starting from any accumulator, the
loop appends exactly the successful products' updates and adds the three
counter totals. -/
theorem runLoop_append (model : List (Nat × ℚ) → ModelOutcome) (products : List Product)
    (acc : List (Nat × Prediction) × BatchStats) :
    products.foldl (stepProduct model) acc =
      (acc.1 ++ products.filterMap (toUpdate model),
        ⟨acc.2.uptrend + products.countP (upB model),
          acc.2.downtrend + products.countP (downB model),
          acc.2.critical + products.countP (critB model)⟩) := by
  induction products generalizing acc with
  | nil => simp
  | cons p t ih =>
    rw [List.foldl_cons, ih]
    rcases hpf : predOf model p with _ | msg | pr
    · simp [stepProduct, toUpdate, upB, downB, critB, hpf, List.filterMap_cons,
        List.countP_cons]
    · simp [stepProduct, toUpdate, upB, downB, critB, hpf, List.filterMap_cons,
        List.countP_cons]
    · simp only [stepProduct, toUpdate, upB, downB, critB, hpf, List.filterMap_cons,
        List.countP_cons, decide_eq_true_eq, Prod.mk.injEq, BatchStats.mk.injEq]
      refine ⟨by simp, ?_, ?_, ?_⟩ <;> omega

/-- The bulk-update list is exactly as long as the number of successful
analyses. -/
theorem length_toUpdate (model : List (Nat × ℚ) → ModelOutcome) (products : List Product) :
    (products.filterMap (toUpdate model)).length =
      products.countP fun p => isSuccessB (predOf model p) := by
  induction products with
  | nil => rfl
  | cons p t ih =>
    rcases hpf : predOf model p with _ | msg | pr <;>
      simp [List.filterMap_cons, List.countP_cons, toUpdate, isSuccessB, hpf, ih]

/-- C2: per-product rejections and model failures are excluded from the
update list without aborting the batch: over any fetched batch the response
reports `processed` = number of fetched products, `updated` = number of
products whose analysis returned success, the update list holds exactly the
successful products, and the uptrend/downtrend/critical counters count only
successful predictions — critical exactly those with a non-null
stock-out date. -/
theorem c2_batch_isolation (model : List (Nat × ℚ) → ModelOutcome)
    (products : List Product) (hne : products ≠ []) :
    run_batch_prediction model (Except.ok products) =
      BatchResponse.report products.length
        (products.countP fun p => isSuccessB (predOf model p))
        ⟨products.countP (upB model), products.countP (downB model),
          products.countP (critB model)⟩ ∧
    (runLoop model products).1 = products.filterMap (toUpdate model) := by
  have hrl := runLoop_append model products ([], ⟨0, 0, 0⟩)
  have hloop : runLoop model products =
      (products.filterMap (toUpdate model),
        ⟨products.countP (upB model), products.countP (downB model),
          products.countP (critB model)⟩) := by
    unfold runLoop
    rw [hrl]
    simp
  refine ⟨?_, by rw [hloop]⟩
  show (if products.isEmpty then BatchResponse.noData
    else BatchResponse.report products.length (runLoop model products).1.length
      (runLoop model products).2) = _
  rw [if_neg (by simp [hne]), hloop, length_toUpdate]

/-- Per-product outcomes of the worked three-product batch: product A is
rejected for insufficient data. -/
theorem predOf_prodA : predOf witModel prodA = ForecastResult.insufficient_data := rfl

/-- Product B hits the model failure. -/
theorem predOf_prodB : predOf witModel prodB = ForecastResult.error "model blew up" := rfl

/-- Product C is analyzed successfully against the all-zero forecast. -/
theorem predOf_prodC :
    predOf witModel prodC = ForecastResult.success (analyzeForecast 100 zPts) := rfl

/-- The all-zero forecast against positive stock 100 never depletes. -/
theorem analyzeZ_sod : (analyzeForecast 100 zPts).stock_out_date = none := by
  show depletionDate 100 (tail30 zPts) = none
  rw [tail30_of_len30 zPts (by decide), depletionDate_none_iff]
  intro k _
  rw [consumedBy_of_all_zero zPts (k + 1) (by decide)]
  norm_num

/-- The all-zero forecast classifies as stable. -/
theorem analyzeZ_trend : (analyzeForecast 100 zPts).trend = Trend.stable := by
  have hst : startSales zPts = 0 := by simp [startSales, listMean, zPts]
  have hend : endSales zPts = 0 := by simp [endSales, listMean, zPts]
  show trendOf (tail30 zPts) = Trend.stable
  rw [tail30_of_len30 zPts (by decide)]
  unfold trendOf
  rw [hst, hend]
  norm_num

/-- Witness for C2: the spec's worked batch — A insufficient data, B model
failure, C success — reports processed 3, updated 1, stats only from C. -/
theorem c2_batch_isolation_witness :
    run_batch_prediction witModel (Except.ok witProducts) =
      BatchResponse.report 3 1 ⟨0, 0, 0⟩ := by
  rw [(c2_batch_isolation witModel witProducts (by simp [witProducts])).1]
  simp [witProducts, List.countP_cons, isSuccessB, upB, downB, critB,
    predOf_prodA, predOf_prodB, predOf_prodC, analyzeZ_trend, analyzeZ_sod]

/-- C9: processing order does not matter — over any permutation of the
batch, the loop produces identical stats and a permutation of the same
per-product updates. -/
theorem c9_permutation_invariance (model : List (Nat × ℚ) → ModelOutcome)
    (ps qs : List Product) (hperm : ps.Perm qs) :
    (runLoop model ps).2 = (runLoop model qs).2 ∧
    (runLoop model ps).1.Perm ((runLoop model qs).1) := by
  have hp := runLoop_append model ps ([], ⟨0, 0, 0⟩)
  have hq := runLoop_append model qs ([], ⟨0, 0, 0⟩)
  unfold runLoop
  rw [hp, hq]
  constructor
  · simp only []
    rw [hperm.countP_eq (upB model), hperm.countP_eq (downB model),
      hperm.countP_eq (critB model)]
  · simp only [List.nil_append]
    exact hperm.filterMap (toUpdate model)

/-- Witness for C9 at the reversed three-product batch. -/
theorem c9_permutation_invariance_witness :
    (runLoop witModel witProducts).2 = (runLoop witModel witProducts.reverse).2 ∧
    (runLoop witModel witProducts).1.Perm ((runLoop witModel witProducts.reverse).1) :=
  c9_permutation_invariance witModel witProducts witProducts.reverse
    (witProducts.reverse_perm).symm

/-- C10: a store read failure is swallowed by `fetch_training_batch` into
the empty batch, and the endpoint answers with the "no data" success
response, never a batch-level failure. -/
theorem c10_fetch_failure_no_data (model : List (Nat × ℚ) → ModelOutcome) (msg : String) :
    fetch_training_batch (Except.error msg) = [] ∧
    run_batch_prediction model (Except.error msg) = BatchResponse.noData ∧
    (∀ m, BatchResponse.noData ≠ BatchResponse.failure m) := by
  refine ⟨rfl, rfl, ?_⟩
  intro m h
  cases h

/-! Lemmas about the resampling span. -/

/-- A running minimum never exceeds its seed. -/
theorem foldl_min_le_init (l : List (Nat × ℚ)) (a : Nat) :
    l.foldl (fun b x => min b x.1) a ≤ a := by
  induction l generalizing a with
  | nil => exact Nat.le_refl a
  | cons y t ih => exact Nat.le_trans (ih (min a y.1)) (Nat.min_le_left a y.1)

/-- A running minimum never exceeds any element it saw. -/
theorem foldl_min_le_mem (l : List (Nat × ℚ)) (x : Nat × ℚ) (hx : x ∈ l) (a : Nat) :
    l.foldl (fun b y => min b y.1) a ≤ x.1 := by
  induction hx generalizing a with
  | head t => exact Nat.le_trans (foldl_min_le_init t (min a x.1)) (Nat.min_le_right a x.1)
  | tail y hmem ih => exact ih (min a y.1)

/-- A running maximum is at least its seed. -/
theorem le_foldl_max_init (l : List (Nat × ℚ)) (a : Nat) :
    a ≤ l.foldl (fun b x => max b x.1) a := by
  induction l generalizing a with
  | nil => exact Nat.le_refl a
  | cons y t ih => exact Nat.le_trans (Nat.le_max_left a y.1) (ih (max a y.1))

/-- A running maximum dominates every element it saw. -/
theorem le_foldl_max_mem (l : List (Nat × ℚ)) (x : Nat × ℚ) (hx : x ∈ l) (a : Nat) :
    x.1 ≤ l.foldl (fun b y => max b y.1) a := by
  induction hx generalizing a with
  | head t => exact Nat.le_trans (Nat.le_max_right a x.1) (le_foldl_max_init t (max a x.1))
  | tail y hmem ih => exact ih (max a y.1)

/-- A running minimum is its seed or some element seen. -/
theorem foldl_min_attained (l : List (Nat × ℚ)) (a : Nat) :
    l.foldl (fun b x => min b x.1) a = a ∨
      ∃ x ∈ l, l.foldl (fun b x => min b x.1) a = x.1 := by
  induction l generalizing a with
  | nil => exact Or.inl rfl
  | cons y t ih =>
    rw [List.foldl_cons]
    rcases ih (min a y.1) with hf | ⟨x, hx, hfx⟩
    · rcases min_cases a y.1 with ⟨hm, _⟩ | ⟨hm, _⟩
      · exact Or.inl (by rw [hf, hm])
      · exact Or.inr ⟨y, List.mem_cons_self y t, by rw [hf, hm]⟩
    · exact Or.inr ⟨x, List.mem_cons_of_mem y hx, hfx⟩

/-- A running maximum is its seed or some element seen. -/
theorem foldl_max_attained (l : List (Nat × ℚ)) (a : Nat) :
    l.foldl (fun b x => max b x.1) a = a ∨
      ∃ x ∈ l, l.foldl (fun b x => max b x.1) a = x.1 := by
  induction l generalizing a with
  | nil => exact Or.inl rfl
  | cons y t ih =>
    rw [List.foldl_cons]
    rcases ih (max a y.1) with hf | ⟨x, hx, hfx⟩
    · rcases max_cases a y.1 with ⟨hm, _⟩ | ⟨hm, _⟩
      · exact Or.inl (by rw [hf, hm])
      · exact Or.inr ⟨y, List.mem_cons_self y t, by rw [hf, hm]⟩
    · exact Or.inr ⟨x, List.mem_cons_of_mem y hx, hfx⟩

/-- The span start bounds every parsed row's date from below. -/
theorem spanLo_le (r : Nat × ℚ) (rs : List (Nat × ℚ)) (x : Nat × ℚ)
    (hx : x ∈ r :: rs) : spanLo r rs ≤ x.1 := by
  rcases List.mem_cons.1 hx with rfl | hx2
  · exact foldl_min_le_init rs x.1
  · exact foldl_min_le_mem rs x hx2 r.1

/-- The span end bounds every parsed row's date from above. -/
theorem le_spanHi (r : Nat × ℚ) (rs : List (Nat × ℚ)) (x : Nat × ℚ)
    (hx : x ∈ r :: rs) : x.1 ≤ spanHi r rs := by
  rcases List.mem_cons.1 hx with rfl | hx2
  · exact le_foldl_max_init rs x.1
  · exact le_foldl_max_mem rs x hx2 r.1

/-- The span is well ordered. -/
theorem spanLo_le_spanHi (r : Nat × ℚ) (rs : List (Nat × ℚ)) :
    spanLo r rs ≤ spanHi r rs :=
  Nat.le_trans (spanLo_le r rs r (List.mem_cons_self r rs))
    (le_spanHi r rs r (List.mem_cons_self r rs))

/-- Some parsed row sits on the first day of the span. -/
theorem spanLo_attained (r : Nat × ℚ) (rs : List (Nat × ℚ)) :
    ∃ x ∈ r :: rs, x.1 = spanLo r rs := by
  rcases foldl_min_attained rs r.1 with hf | ⟨x, hx, hfx⟩
  · exact ⟨r, List.mem_cons_self r rs, hf.symm⟩
  · exact ⟨x, List.mem_cons_of_mem r hx, hfx.symm⟩

/-- Some parsed row sits on the last day of the span. -/
theorem spanHi_attained (r : Nat × ℚ) (rs : List (Nat × ℚ)) :
    ∃ x ∈ r :: rs, x.1 = spanHi r rs := by
  rcases foldl_max_attained rs r.1 with hf | ⟨x, hx, hfx⟩
  · exact ⟨r, List.mem_cons_self r rs, hf.symm⟩
  · exact ⟨x, List.mem_cons_of_mem r hx, hfx.symm⟩

/-- Entry `i` of the resampled series is day `spanLo + i` with its daily
sum. -/
theorem resampled_get (r : Nat × ℚ) (rs : List (Nat × ℚ)) (i : Nat)
    (hi : i < (resampled r rs).length) :
    (resampled r rs).get ⟨i, hi⟩ =
      (spanLo r rs + i, daySum (r :: rs) (spanLo r rs + i)) := by
  simp [resampled]

/-- Destructor for a successful normalization: the history has no malformed
date, its parsed rows are nonempty, and the output is their resampling,
at least 10 entries long. -/
theorem preprocess_data_eq_some (h : List RawObs) (s : List (Nat × ℚ))
    (hs : preprocess_data h = some s) :
    ∃ r rs, parsedRows h = r :: rs ∧ s = resampled r rs ∧ 10 ≤ s.length := by
  unfold preprocess_data at hs
  by_cases hmal : (h.any fun r => r.ds == DateField.malformed) = true
  · rw [if_pos hmal] at hs
    cases hs
  · rw [if_neg hmal] at hs
    rcases hpr : parsedRows h with _ | ⟨r, rs⟩ <;> rw [hpr] at hs <;> simp only [] at hs
    · cases hs
    · by_cases hlen : (resampled r rs).length < 10
      · rw [if_pos hlen] at hs
        cases hs
      · rw [if_neg hlen] at hs
        have heq : s = resampled r rs := (Option.some.inj hs).symm
        refine ⟨r, rs, rfl, heq, ?_⟩
        rw [heq]
        omega

/-- C3: every daily series a normalization run produces has at least 10
entries, consecutive dates (one entry per calendar day, sorted ascending,
no gaps), each entry's quantity the sum of all parsed rows on that date
(so duplicates are aggregated and absent days carry 0), every observed
date inside it, and its span bounded by observed dates on both sides. -/
theorem c3_daily_series (h : List RawObs) (s : List (Nat × ℚ))
    (hs : preprocess_data h = some s) :
    10 ≤ s.length ∧
    (∀ i (hi1 : i + 1 < s.length),
      (s.get ⟨i + 1, hi1⟩).1 = (s.get ⟨i, Nat.lt_of_succ_lt hi1⟩).1 + 1) ∧
    (∀ e ∈ s, e.2 = (((parsedRows h).filter fun x => x.1 == e.1).map fun x => x.2).sum) ∧
    (∀ x ∈ parsedRows h, ∃ e ∈ s, e.1 = x.1) ∧
    (∀ e ∈ s, (∃ x ∈ parsedRows h, x.1 ≤ e.1) ∧ (∃ x ∈ parsedRows h, e.1 ≤ x.1)) := by
  obtain ⟨r, rs, hpr, hseq, hlen⟩ := preprocess_data_eq_some h s hs
  subst hseq
  refine ⟨hlen, ?_, ?_, ?_, ?_⟩
  · intro i hi1
    rw [resampled_get, resampled_get]
    rfl
  · intro e he
    rw [hpr]
    simp only [resampled, List.mem_map, List.mem_range] at he
    obtain ⟨i, _, hei⟩ := he
    subst hei
    rfl
  · intro x hx
    rw [hpr] at hx
    have hlo := spanLo_le r rs x hx
    have hhi := le_spanHi r rs x hx
    refine ⟨(spanLo r rs + (x.1 - spanLo r rs),
      daySum (r :: rs) (spanLo r rs + (x.1 - spanLo r rs))), ?_, ?_⟩
    · simp only [resampled, List.mem_map, List.mem_range]
      exact ⟨x.1 - spanLo r rs, by omega, rfl⟩
    · simp only []
      omega
  · intro e he
    simp only [resampled, List.mem_map, List.mem_range] at he
    obtain ⟨i, hi, hei⟩ := he
    subst hei
    obtain ⟨xl, hxl, hxleq⟩ := spanLo_attained r rs
    obtain ⟨xh, hxh, hxheq⟩ := spanHi_attained r rs
    have hls := spanLo_le_spanHi r rs
    rw [hpr]
    constructor
    · exact ⟨xl, hxl, by simp only []; omega⟩
    · exact ⟨xh, hxh, by simp only []; omega⟩

/-- Witness for C3 at the clean 10-day history. -/
theorem c3_daily_series_witness :
    preprocess_data goodHist = some goodSeries ∧ 10 ≤ goodSeries.length :=
  ⟨preprocess_goodHist, (c3_daily_series goodHist goodSeries preprocess_goodHist).1⟩

end SmartInventory
